import Mathlib

/-!
Verification of the spandsp-rs safe wrapper layer.

The development shallowly embeds the parts of the crate that the verified
properties concern:

* the stateless G.711 codec functions of `src/spandsp/src/g711.rs`
  (`top_bit`, `linear_to_ulaw`, `ulaw_to_linear`, `linear_to_alaw`,
  `alaw_to_linear`), translated operation for operation;
* the wrapper plumbing of `t30.rs`, `logging.rs`, `dtmf.rs`, `hdlc.rs`,
  `fax.rs`, `g711.rs`, `t4_rx.rs` and `error.rs`: constructors, drop
  implementations, NUL-checked text operations, return-code translation and
  the callback trampolines.  Native engine calls are abstracted by their
  observable interface: a constructor takes the pointer value the native
  initializer returned (`0` modelling NULL), a return-code wrapper takes the
  native return code, and each operation reports the list of native calls it
  issued so that claims about which calls happen are expressible.

Machine integers are embedded as `Int` and `Nat` with any wrap-around made
explicit; nonnegative `i32` intermediates are carried as `Nat`, justified at
each definition.
-/

set_option maxRecDepth 8000

namespace Spandsp

namespace G711

/-- Embedding of `ULAW_BIAS`: bias added during u-law encoding
(`const ULAW_BIAS: i32 = 0x84`, g711.rs line 136). -/
def ULAW_BIAS : Int := 0x84

/-- Embedding of `ALAW_AMI_MASK`: A-law alternate mark inversion mask
(`const ALAW_AMI_MASK: u8 = 0x55`, g711.rs line 139). -/
def ALAW_AMI_MASK : Nat := 0x55

/-- Bit length of a natural number, by structural recursion on a fuel argument
so that kernel reduction can evaluate it: `bit_length f n` is the number of
binary digits of `n`, provided `n < 2 ^ f`. -/
def bit_length : Nat → Nat → Nat
  | 0, _ => 0
  | fuel + 1, n => if n = 0 then 0 else bit_length fuel (n / 2) + 1

/-- Embedding of `u32::leading_zeros` of a value below `2 ^ 32`. -/
def leading_zeros32 (n : Nat) : Nat := 32 - bit_length 32 n

/-- Embedding of `top_bit(v)` (g711.rs lines 144-151): position of the highest set bit of
`v as u32`, and `-1` when `v == 0`.  The source computes
`31 - (v as u32).leading_zeros()`; the `u32` reinterpretation of an in-range
`i32` is `v mod 2 ^ 32`. -/
def top_bit (v : Int) : Int :=
  if v = 0 then -1
  else Int.ofNat (31 - leading_zeros32 ((v % 2 ^ 32).toNat))

/-- Rust `as i16` on an integer whose low 16 bits carry the result
(two-complement wrap-around). -/
def i16_of_int (x : Int) : Int :=
  (x + 0x8000) % 0x10000 - 0x8000

/-- Embedding of `linear_to_ulaw` (g711.rs lines 155-171).  The biased magnitude `lin` is an
`i32` in the source; for every `i16` input it is nonnegative in both branches
(`linear + 0x84 ≥ 0x84` resp. `0x84 - linear ≥ 0x85`), so it is carried as a
`Nat`, on which the `i32` bit operations of the source coincide with the `Nat`
ones.  The `as u8` cast before the final XOR is the explicit `% 256`. -/
def linear_to_ulaw (linear : Int) : Nat :=
  let lin : Nat := if 0 ≤ linear then (linear + ULAW_BIAS).toNat else (ULAW_BIAS - linear).toNat
  let mask : Nat := if 0 ≤ linear then 0xFF else 0x7F
  let seg : Int := top_bit (Int.ofNat (lin ||| 0xFF)) - 7
  if 8 ≤ seg then 0x7F ^^^ mask
  else (((seg.toNat <<< 4) ||| ((lin >>> (seg.toNat + 3)) &&& 0xF)) % 256) ^^^ mask

/-- Embedding of `ulaw_to_linear` (g711.rs lines 175-183).  `!ulaw` on a `u8` is
`ulaw ^^^ 0xFF`; the final `as i16` casts are kept explicit via `i16_of_int`. -/
def ulaw_to_linear (ulaw : Nat) : Int :=
  let u : Nat := (ulaw ^^^ 0xFF) &&& 0xFF
  let t : Int := Int.ofNat ((((u &&& 0x0F) <<< 3) + ULAW_BIAS.toNat) <<< ((u &&& 0x70) >>> 4))
  if u &&& 0x80 ≠ 0 then i16_of_int (ULAW_BIAS - t) else i16_of_int (t - ULAW_BIAS)

/-- Embedding of `linear_to_alaw` (g711.rs lines 187-203).  As with u-law, the magnitude
`lin` (`linear` resp. `-linear - 1`) is nonnegative for every `i16` input and
is carried as a `Nat`. -/
def linear_to_alaw (linear : Int) : Nat :=
  let mask : Nat := if 0 ≤ linear then 0x80 ||| ALAW_AMI_MASK else ALAW_AMI_MASK
  let lin : Nat := if 0 ≤ linear then linear.toNat else (-linear - 1).toNat
  let seg : Int := top_bit (Int.ofNat (lin ||| 0xFF)) - 7
  if 8 ≤ seg then 0x7F ^^^ mask
  else
    let shift : Nat := if seg ≠ 0 then seg.toNat + 3 else 4
    (((seg.toNat <<< 4) ||| ((lin >>> shift) &&& 0x0F)) % 256) ^^^ mask

/-- Embedding of `alaw_to_linear` (g711.rs lines 207-221).  The source computes `val` as an
`i32` (nonnegative, at most 32256) and casts with `as i16`, kept explicit. -/
def alaw_to_linear (alaw : Nat) : Int :=
  let a : Nat := alaw ^^^ ALAW_AMI_MASK
  let i : Nat := (a &&& 0x0F) <<< 4
  let seg : Nat := (a &&& 0x70) >>> 4
  let val : Int := Int.ofNat (if seg ≠ 0 then (i + 0x108) <<< (seg - 1) else i + 8)
  if a &&& 0x80 ≠ 0 then i16_of_int val else -(i16_of_int val)

/-- Specification-side u-law encoder, written from the spec text alone: bias
the magnitude by 0x84; the segment index is the position of the most
significant set bit of the biased magnitude minus 7; a segment index of 8 or
more saturates to `0x7F XOR mask`; otherwise the code is the segment in the
high nibble plus the 4 mantissa bits found `seg + 3` bits up, XOR mask, where
the mask is 0xFF for nonnegative inputs and 0x7F for negative ones. -/
def ulaw_spec_encode (linear : Int) : Nat :=
  let mag : Nat := if 0 ≤ linear then linear.toNat + 0x84 else (-linear).toNat + 0x84
  let mask : Nat := if 0 ≤ linear then 0xFF else 0x7F
  let seg : Nat := (bit_length 32 mag - 1) - 7
  if 8 ≤ seg then 0x7F ^^^ mask
  else (seg * 16 + mag / 2 ^ (seg + 3) % 16) ^^^ mask

/-- Specification-side A-law encoder, written from the spec text alone: the
magnitude is `linear` for nonnegative inputs and `-linear - 1` for negative
ones; the segment index is the position of the most significant set bit of the
magnitude (floored to the 0xFF range) minus 7; saturation at segment index 8;
the mantissa shift is segment-derived (4 for segment 0, `seg + 3` otherwise);
the mask is 0xD5 for nonnegative inputs and 0x55 for negative ones. -/
def alaw_spec_encode (linear : Int) : Nat :=
  let mag : Nat := if 0 ≤ linear then linear.toNat else (-linear - 1).toNat
  let mask : Nat := if 0 ≤ linear then 0xD5 else 0x55
  let seg : Nat := (bit_length 32 (max mag 0xFF) - 1) - 7
  if 8 ≤ seg then 0x7F ^^^ mask
  else
    let shift : Nat := if seg = 0 then 4 else seg + 3
    (seg * 16 + mag / 2 ^ shift % 16) ^^^ mask

/-- Segment index (0 to 7) that a linear sample falls in under u-law: the
encoder segment, capped at 7 for saturated samples. -/
def ulaw_seg_of (linear : Int) : Nat :=
  let mag : Nat := if 0 ≤ linear then linear.toNat + 0x84 else (-linear).toNat + 0x84
  min ((bit_length 32 mag - 1) - 7) 7

/-- Quantization step of the u-law segment a linear sample falls in: the
mantissa of segment `s` counts multiples of `2 ^ (s + 3)`. -/
def ulaw_quant_step (linear : Int) : Nat := 2 ^ (ulaw_seg_of linear + 3)

/-- Segment index (0 to 7) that a linear sample falls in under A-law. -/
def alaw_seg_of (linear : Int) : Nat :=
  let mag : Nat := if 0 ≤ linear then linear.toNat else (-linear - 1).toNat
  min ((bit_length 32 (max mag 0xFF) - 1) - 7) 7

/-- Quantization step of the A-law segment a linear sample falls in: the
mantissa of segment `s` counts multiples of `2 ^ shift` where `shift` is 4 in
segment 0 and `s + 3` above it. -/
def alaw_quant_step (linear : Int) : Nat :=
  2 ^ (if alaw_seg_of linear = 0 then 4 else alaw_seg_of linear + 3)

end G711

end Spandsp

open Spandsp.G711

/-- C1 counterexample: the claim asserts that each law has two codes decoding
to numeric zero (its dual zero representation).  For A-law this is false: no
8-bit A-law code decodes to linear zero at all — the A-law decoder output has
magnitude at least 8 — so the filter of the 256 codes by `decodes to 0` is
empty rather than a two-element set. -/
theorem C1_alaw_no_zero_code_counterexample :
    ((List.range 256).filter fun c => alaw_to_linear c == 0) = [] := by decide

/-- C1 (amended): decode-then-re-encode over all 256 codes.  For u-law it is
the identity except on 0x7F, the second zero representation, which re-encodes
to the canonical zero code 0xFF; exactly the two codes 0x7F and 0xFF decode to
numeric zero.  For A-law decode-then-re-encode is the identity on all 256
codes, and no A-law code decodes to numeric zero. -/
theorem C1_roundtrip_amended :
    (∀ c : Fin 256,
      linear_to_ulaw (ulaw_to_linear c.val) = (if c.val = 0x7F then 0xFF else c.val)) ∧
    ((List.range 256).filter fun c => ulaw_to_linear c == 0) = [0x7F, 0xFF] ∧
    (∀ c : Fin 256, linear_to_alaw (alaw_to_linear c.val) = c.val) := by
  refine ⟨by decide, by decide, by decide⟩

/-- C2: for the boundary linear samples 0, 1, -1, 32767 and -32768,
encode-then-decode under each law reproduces the original within one
quantization step of the segment the sample falls in. -/
theorem C2_boundary_samples_roundtrip :
    (∀ s ∈ ([0, 1, -1, 32767, -32768] : List Int),
      (ulaw_to_linear (linear_to_ulaw s) - s).natAbs ≤ ulaw_quant_step s) ∧
    (∀ s ∈ ([0, 1, -1, 32767, -32768] : List Int),
      (alaw_to_linear (linear_to_alaw s) - s).natAbs ≤ alaw_quant_step s) := by
  refine ⟨by decide, by decide⟩

namespace Spandsp.G711

theorem bit_length_zero (fuel : Nat) : bit_length fuel 0 = 0 := by
  cases fuel <;> simp [bit_length]

theorem bit_length_le (fuel : Nat) : ∀ n, bit_length fuel n ≤ fuel := by
  induction fuel with
  | zero => intro n; simp [bit_length]
  | succ f ih =>
    intro n
    rw [bit_length]
    split
    · omega
    · have := ih (n / 2); omega

theorem lt_two_pow_bit_length (fuel : Nat) : ∀ n, n < 2 ^ fuel → n < 2 ^ bit_length fuel n := by
  induction fuel with
  | zero => intro n h; simpa [bit_length] using h
  | succ f ih =>
    intro n h
    rw [bit_length]
    split
    · simpa using by omega
    · have hp : (2 : Nat) ^ (f + 1) = 2 * 2 ^ f := by rw [pow_succ]; ring
      have h2 : n / 2 < 2 ^ f := by omega
      have h3 := ih (n / 2) h2
      have hp2 : (2 : Nat) ^ (bit_length f (n / 2) + 1) = 2 * 2 ^ bit_length f (n / 2) := by
        rw [pow_succ]; ring
      omega

theorem two_pow_pred_le (fuel : Nat) :
    ∀ n, 0 < n → n < 2 ^ fuel → 2 ^ (bit_length fuel n - 1) ≤ n := by
  induction fuel with
  | zero => intro n h0 h; omega
  | succ f ih =>
    intro n h0 h
    rw [bit_length, if_neg (by omega)]
    cases hL : bit_length f (n / 2) with
    | zero => simpa using h0
    | succ l =>
      have hd : 0 < n / 2 := by
        by_contra hc
        have : n / 2 = 0 := by omega
        rw [this, bit_length_zero] at hL
        exact Nat.noConfusion hL
      have h2 : n / 2 < 2 ^ f := by
        have hp : (2 : Nat) ^ (f + 1) = 2 * 2 ^ f := by rw [pow_succ]; ring
        omega
      have h3 := ih (n / 2) hd h2
      rw [hL] at h3
      have hp2 : (2 : Nat) ^ (l + 1) = 2 * 2 ^ l := by rw [pow_succ]; ring
      simp only [Nat.add_sub_cancel] at h3 ⊢
      omega

theorem bit_length_eq (fuel n k : Nat) (hf : n < 2 ^ fuel) (h1 : 2 ^ k ≤ n)
    (h2 : n < 2 ^ (k + 1)) : bit_length fuel n = k + 1 := by
  have hk1 : (1 : Nat) ≤ 2 ^ k := Nat.one_le_two_pow
  have h0 : 0 < n := by omega
  have hu := lt_two_pow_bit_length fuel n hf
  have hl := two_pow_pred_le fuel n h0 hf
  by_contra hne
  rcases Nat.lt_or_ge (bit_length fuel n) (k + 1) with hlt | hge
  · have : 2 ^ bit_length fuel n ≤ 2 ^ k := Nat.pow_le_pow_right (by norm_num) (by omega)
    omega
  · have : 2 ^ (k + 1) ≤ 2 ^ (bit_length fuel n - 1) :=
      Nat.pow_le_pow_right (by norm_num) (by omega)
    omega

theorem le_lor_left (n m : Nat) : n ≤ n ||| m :=
  Nat.le_of_testBit fun i h => by simp [Nat.testBit_lor, h]

theorem le_lor_right (n m : Nat) : m ≤ n ||| m :=
  Nat.le_of_testBit fun i h => by simp [Nat.testBit_lor, h]

theorem bit_length_lor_255 (n : Nat) (h : n < 2 ^ 32) :
    bit_length 32 (n ||| 255) = bit_length 32 (max n 255) := by
  rcases le_or_lt n 255 with hle | hgt
  · have h1 : 255 ≤ n ||| 255 := le_lor_right n 255
    have h2 : n ||| 255 < 256 := by
      have ha : n < 2 ^ 8 := by omega
      have hb : (255 : Nat) < 2 ^ 8 := by norm_num
      have := Nat.or_lt_two_pow ha hb
      omega
    have he : n ||| 255 = 255 := by omega
    rw [he, Nat.max_eq_right hle]
  · rw [Nat.max_eq_left (le_of_lt hgt)]
    have h0 : 0 < n := by omega
    have hu := lt_two_pow_bit_length 32 n h
    have hl := two_pow_pred_le 32 n h0 h
    have hL9 : 9 ≤ bit_length 32 n := by
      by_contra hc
      have hc2 : 2 ^ bit_length 32 n ≤ 2 ^ 8 := Nat.pow_le_pow_right (by norm_num) (by omega)
      have : (2 : Nat) ^ 8 = 256 := by norm_num
      omega
    have hb := bit_length_eq 32 (n ||| 255) (bit_length 32 n - 1)
      (Nat.or_lt_two_pow h (by norm_num))
      (le_trans hl (le_lor_left n 255))
      (by
        have h255 : (255 : Nat) < 2 ^ bit_length 32 n :=
          lt_of_lt_of_le (by norm_num : (255 : Nat) < 2 ^ 9)
            (Nat.pow_le_pow_right (by norm_num) hL9)
        have := Nat.or_lt_two_pow hu h255
        have hc : bit_length 32 n - 1 + 1 = bit_length 32 n := by omega
        rwa [hc])
    omega

theorem bit_length_max_255 (n : Nat) (h128 : 128 ≤ n) (h : n < 2 ^ 32) :
    bit_length 32 (max n 255) = bit_length 32 n := by
  rcases le_or_lt n 255 with hle | hgt
  · rw [Nat.max_eq_right hle]
    have e1 : bit_length 32 255 = 8 := by decide
    have e2 : bit_length 32 n = 8 :=
      bit_length_eq 32 n 7 h (by norm_num; omega) (by norm_num; omega)
    rw [e1, e2]
  · rw [Nat.max_eq_left (le_of_lt hgt)]

theorem top_bit_ofNat (p : Nat) (h0 : 0 < p) (h : p < 2 ^ 32) :
    top_bit (Int.ofNat p) = Int.ofNat (bit_length 32 p - 1) := by
  have hofnat : Int.ofNat p = (p : Int) := rfl
  rw [top_bit, hofnat, if_neg (by omega : ¬((p : Int) = 0))]
  have hmod : (p : Int) % 2 ^ 32 = (p : Int) :=
    Int.emod_eq_of_lt (by positivity) (by exact_mod_cast h)
  rw [hmod]
  have htn : ((p : Int)).toNat = p := rfl
  rw [htn, leading_zeros32]
  have h1 : bit_length 32 p ≠ 0 := by
    intro hz
    have := lt_two_pow_bit_length 32 p h
    rw [hz] at this
    simp at this
    omega
  have h2 : bit_length 32 p ≤ 32 := bit_length_le 32 p
  congr 1
  omega

theorem shiftLeft_lor_eq_add (a b : Nat) (hb : b < 16) :
    (a <<< 4) ||| b = a * 16 + b := by
  apply Nat.eq_of_testBit_eq
  intro i
  rw [Nat.testBit_lor, Nat.testBit_shiftLeft]
  have h16 : a * 16 + b = 2 ^ 4 * a + b := by ring
  rw [h16, Nat.testBit_mul_pow_two_add a (by omega : b < 2 ^ 4) i]
  by_cases hi : i < 4
  · simp [hi, show ¬4 ≤ i by omega]
  · have hge : 4 ≤ i := by omega
    have hbf : b.testBit i = false :=
      Nat.testBit_lt_two_pow
        (lt_of_lt_of_le (by omega : b < 2 ^ 4) (Nat.pow_le_pow_right (by norm_num) hge))
    simp [hi, hge, hbf]

theorem mantissa_rewrite (seg shift m mask : Nat) (hseg : seg ≤ 7) :
    (((seg <<< 4) ||| ((m >>> shift) &&& 0x0F)) % 256) ^^^ mask
      = (seg * 16 + m / 2 ^ shift % 16) ^^^ mask := by
  have h15 : (0x0F : Nat) = 2 ^ 4 - 1 := by norm_num
  rw [Nat.shiftRight_eq_div_pow, h15, Nat.and_pow_two_sub_one_eq_mod]
  have hx : m / 2 ^ shift % 2 ^ 4 < 16 := Nat.mod_lt _ (by norm_num)
  rw [shiftLeft_lor_eq_add seg _ hx]
  have hlt : seg * 16 + m / 2 ^ shift % 2 ^ 4 < 256 := by omega
  rw [Nat.mod_eq_of_lt hlt]
  norm_num

end Spandsp.G711

namespace Spandsp.G711

theorem ulaw_mag_eq (m mask : Nat) (h1 : 132 ≤ m) (h2 : m < 2 ^ 16) :
    (if 8 ≤ top_bit (Int.ofNat (m ||| 0xFF)) - 7 then 0x7F ^^^ mask
     else ((((top_bit (Int.ofNat (m ||| 0xFF)) - 7).toNat <<< 4) |||
             ((m >>> ((top_bit (Int.ofNat (m ||| 0xFF)) - 7).toNat + 3)) &&& 0xF)) % 256) ^^^ mask)
    = (if 8 ≤ (bit_length 32 m - 1) - 7 then 0x7F ^^^ mask
       else (((bit_length 32 m - 1) - 7) * 16
              + m / 2 ^ ((bit_length 32 m - 1) - 7 + 3) % 16) ^^^ mask) := by
  have hm32 : m < 2 ^ 32 := by norm_num at h2 ⊢; omega
  have hor_pos : 0 < m ||| 255 := lt_of_lt_of_le (by norm_num) (le_lor_right m 255)
  have hor32 : m ||| 255 < 2 ^ 32 := Nat.or_lt_two_pow hm32 (by norm_num)
  have htop := top_bit_ofNat (m ||| 255) hor_pos hor32
  have hbl : bit_length 32 (m ||| 255) = bit_length 32 m := by
    rw [bit_length_lor_255 m hm32, bit_length_max_255 m (by omega) hm32]
  have hu := lt_two_pow_bit_length 32 m hm32
  have hl := two_pow_pred_le 32 m (by omega) hm32
  have hL8 : 8 ≤ bit_length 32 m := by
    by_contra hc
    have hp : 2 ^ bit_length 32 m ≤ 2 ^ 7 := Nat.pow_le_pow_right (by norm_num) (by omega)
    have : (2 : Nat) ^ 7 = 128 := by norm_num
    omega
  have hL16 : bit_length 32 m ≤ 16 := by
    by_contra hc
    have hp : 2 ^ 16 ≤ 2 ^ (bit_length 32 m - 1) := Nat.pow_le_pow_right (by norm_num) (by omega)
    omega
  rw [htop, hbl]
  simp only [Int.ofNat_eq_natCast]
  by_cases hsat : 16 ≤ bit_length 32 m
  · rw [if_pos (by omega : (8 : Int) ≤ ((bit_length 32 m - 1 : Nat) : Int) - 7),
        if_pos (by omega : 8 ≤ (bit_length 32 m - 1) - 7)]
  · rw [if_neg (by omega : ¬((8 : Int) ≤ ((bit_length 32 m - 1 : Nat) : Int) - 7)),
        if_neg (by omega : ¬(8 ≤ (bit_length 32 m - 1) - 7))]
    have hseg : (((bit_length 32 m - 1 : Nat) : Int) - 7).toNat = (bit_length 32 m - 1) - 7 := by
      omega
    rw [hseg]
    exact mantissa_rewrite _ _ m mask (by omega)

theorem alaw_mag_eq (m mask : Nat) (h2 : m < 2 ^ 16) :
    (if 8 ≤ top_bit (Int.ofNat (m ||| 0xFF)) - 7 then 0x7F ^^^ mask
     else ((((top_bit (Int.ofNat (m ||| 0xFF)) - 7).toNat <<< 4) |||
             ((m >>> (if top_bit (Int.ofNat (m ||| 0xFF)) - 7 ≠ 0
                      then (top_bit (Int.ofNat (m ||| 0xFF)) - 7).toNat + 3
                      else 4)) &&& 0x0F)) % 256) ^^^ mask)
    = (if 8 ≤ (bit_length 32 (max m 0xFF) - 1) - 7 then 0x7F ^^^ mask
       else (((bit_length 32 (max m 0xFF) - 1) - 7) * 16
              + m / 2 ^ (if (bit_length 32 (max m 0xFF) - 1) - 7 = 0 then 4
                         else (bit_length 32 (max m 0xFF) - 1) - 7 + 3) % 16) ^^^ mask) := by
  have hm32 : m < 2 ^ 32 := by norm_num at h2 ⊢; omega
  have hor_pos : 0 < m ||| 255 := lt_of_lt_of_le (by norm_num) (le_lor_right m 255)
  have hor32 : m ||| 255 < 2 ^ 32 := Nat.or_lt_two_pow hm32 (by norm_num)
  have htop := top_bit_ofNat (m ||| 255) hor_pos hor32
  have hbl : bit_length 32 (m ||| 255) = bit_length 32 (max m 255) := bit_length_lor_255 m hm32
  have hmax32 : max m 255 < 2 ^ 32 := Nat.max_lt.mpr ⟨hm32, by norm_num⟩
  have hmaxlb : 255 ≤ max m 255 := le_max_right m 255
  have hu := lt_two_pow_bit_length 32 (max m 255) hmax32
  have hl := two_pow_pred_le 32 (max m 255) (by omega) hmax32
  have hL8 : 8 ≤ bit_length 32 (max m 255) := by
    by_contra hc
    have hp : 2 ^ bit_length 32 (max m 255) ≤ 2 ^ 7 :=
      Nat.pow_le_pow_right (by norm_num) (by omega)
    have h7 : (2 : Nat) ^ 7 = 128 := by norm_num
    omega
  have hL16 : bit_length 32 (max m 255) ≤ 16 := by
    have hmax16 : max m 255 < 2 ^ 16 := Nat.max_lt.mpr ⟨h2, by norm_num⟩
    by_contra hc
    have hp : 2 ^ 16 ≤ 2 ^ (bit_length 32 (max m 255) - 1) :=
      Nat.pow_le_pow_right (by norm_num) (by omega)
    omega
  rw [htop, hbl]
  simp only [Int.ofNat_eq_natCast]
  by_cases hsat : 16 ≤ bit_length 32 (max m 255)
  · rw [if_pos (by omega : (8 : Int) ≤ ((bit_length 32 (max m 255) - 1 : Nat) : Int) - 7),
        if_pos (by omega : 8 ≤ (bit_length 32 (max m 255) - 1) - 7)]
  · rw [if_neg (by omega : ¬((8 : Int) ≤ ((bit_length 32 (max m 255) - 1 : Nat) : Int) - 7)),
        if_neg (by omega : ¬(8 ≤ (bit_length 32 (max m 255) - 1) - 7))]
    have hseg : (((bit_length 32 (max m 255) - 1 : Nat) : Int) - 7).toNat
        = (bit_length 32 (max m 255) - 1) - 7 := by omega
    rw [hseg]
    by_cases hz : (bit_length 32 (max m 255) - 1) - 7 = 0
    · rw [if_neg (by omega : ¬(((bit_length 32 (max m 255) - 1 : Nat) : Int) - 7 ≠ 0)),
          if_pos hz, hz]
      exact mantissa_rewrite 0 4 m mask (by omega)
    · rw [if_pos (by omega : ((bit_length 32 (max m 255) - 1 : Nat) : Int) - 7 ≠ 0),
          if_neg hz]
      exact mantissa_rewrite _ _ m mask (by omega)

end Spandsp.G711

/-- C3: for every 16-bit input sample, `linear_to_ulaw` and `linear_to_alaw`
agree with the specification-side encoders `ulaw_spec_encode` and
`alaw_spec_encode`, which are written from the stated algorithm alone: bias
the magnitude by the law-specific constant (0x84 for u-law, `-lin - 1` on
negatives for A-law), take the most-significant-set-bit position of the biased
magnitude minus 7 as the segment, saturate to `0x7F XOR mask` at segment 8 and
above, and otherwise combine the segment and the 4 mantissa bits extracted
with a segment-derived shift, XOR the law- and sign-dependent mask. -/
theorem C3_encoders_follow_stated_algorithm :
    ∀ linear : Int, -32768 ≤ linear → linear < 32768 →
      linear_to_ulaw linear = ulaw_spec_encode linear ∧
      linear_to_alaw linear = alaw_spec_encode linear := by
  intro linear hlo hhi
  constructor
  · by_cases hpos : 0 ≤ linear
    · simp only [linear_to_ulaw, ulaw_spec_encode, ULAW_BIAS, if_pos hpos]
      have hmg : (linear + (0x84 : Int)).toNat = linear.toNat + 0x84 := by omega
      rw [hmg]
      exact ulaw_mag_eq _ _ (by omega) (by norm_num; omega)
    · simp only [linear_to_ulaw, ulaw_spec_encode, ULAW_BIAS, if_neg hpos]
      have hmg : ((0x84 : Int) - linear).toNat = (-linear).toNat + 0x84 := by omega
      rw [hmg]
      exact ulaw_mag_eq _ _ (by omega) (by norm_num; omega)
  · by_cases hpos : 0 ≤ linear
    · simp only [linear_to_alaw, alaw_spec_encode, ALAW_AMI_MASK, if_pos hpos]
      have hmask : (0x80 ||| 0x55 : Nat) = 0xD5 := by decide
      rw [hmask]
      exact alaw_mag_eq _ _ (by norm_num; omega)
    · simp only [linear_to_alaw, alaw_spec_encode, ALAW_AMI_MASK, if_neg hpos]
      exact alaw_mag_eq _ _ (by norm_num; omega)

/-- C3 witness: the theorem applied at the concrete sample -1234. -/
theorem C3_encoders_witness :
    linear_to_ulaw (-1234) = ulaw_spec_encode (-1234) ∧
    linear_to_alaw (-1234) = alaw_spec_encode (-1234) :=
  C3_encoders_follow_stated_algorithm (-1234) (by decide) (by decide)

namespace Spandsp

/-- Native library calls that the safe wrappers can issue.  Each wrapper
operation below returns, besides its result, the list of native calls it
issued, so that claims about which native calls happen are expressible. -/
inductive NativeCall
  | g711_init
  | hdlc_rx_init
  | fax_init
  | dtmf_tx_put
  | span_log_set_tag
  | t30_set_tx_file
  | t30_free
  | span_log_free
  | hdlc_tx_frame
  | hdlc_tx_flags
  | fax_restart
  | t4_rx_put_call
  | t4_rx_put_bit_call
  deriving DecidableEq, Repr

/-- Embedding of `t30_err_e` discriminants reachable from `T30State::completion_code`
(t30.rs lines 167-235).  The enum itself lives in the `spandsp-sys` bindings;
the 62 variants named in the `completion_code` match are embedded here. -/
inductive T30Err
  | T30_ERR_OK
  | T30_ERR_CEDTONE
  | T30_ERR_T0_EXPIRED
  | T30_ERR_T1_EXPIRED
  | T30_ERR_T3_EXPIRED
  | T30_ERR_HDLC_CARRIER
  | T30_ERR_CANNOT_TRAIN
  | T30_ERR_OPER_INT_FAIL
  | T30_ERR_INCOMPATIBLE
  | T30_ERR_RX_INCAPABLE
  | T30_ERR_TX_INCAPABLE
  | T30_ERR_NORESSUPPORT
  | T30_ERR_NOSIZESUPPORT
  | T30_ERR_UNEXPECTED
  | T30_ERR_TX_BADDCS
  | T30_ERR_TX_BADPG
  | T30_ERR_TX_ECMPHD
  | T30_ERR_TX_GOTDCN
  | T30_ERR_TX_INVALRSP
  | T30_ERR_TX_NODIS
  | T30_ERR_TX_PHBDEAD
  | T30_ERR_TX_PHDDEAD
  | T30_ERR_TX_T5EXP
  | T30_ERR_RX_ECMPHD
  | T30_ERR_RX_GOTDCS
  | T30_ERR_RX_INVALCMD
  | T30_ERR_RX_NOCARRIER
  | T30_ERR_RX_NOEOL
  | T30_ERR_RX_NOFAX
  | T30_ERR_RX_T2EXPDCN
  | T30_ERR_RX_T2EXPD
  | T30_ERR_RX_T2EXPFAX
  | T30_ERR_RX_T2EXPMPS
  | T30_ERR_RX_T2EXPRR
  | T30_ERR_RX_T2EXP
  | T30_ERR_RX_DCNWHY
  | T30_ERR_RX_DCNDATA
  | T30_ERR_RX_DCNFAX
  | T30_ERR_RX_DCNPHD
  | T30_ERR_RX_DCNRRD
  | T30_ERR_RX_DCNNORTN
  | T30_ERR_FILEERROR
  | T30_ERR_NOPAGE
  | T30_ERR_BADTIFF
  | T30_ERR_BADPAGE
  | T30_ERR_BADTAG
  | T30_ERR_BADTIFFHDR
  | T30_ERR_NOMEM
  | T30_ERR_RETRYDCN
  | T30_ERR_CALLDROPPED
  | T30_ERR_NOPOLL
  | T30_ERR_IDENT_UNACCEPTABLE
  | T30_ERR_SUB_UNACCEPTABLE
  | T30_ERR_SEP_UNACCEPTABLE
  | T30_ERR_PSA_UNACCEPTABLE
  | T30_ERR_SID_UNACCEPTABLE
  | T30_ERR_PWD_UNACCEPTABLE
  | T30_ERR_TSA_UNACCEPTABLE
  | T30_ERR_IRA_UNACCEPTABLE
  | T30_ERR_CIA_UNACCEPTABLE
  | T30_ERR_ISP_UNACCEPTABLE
  | T30_ERR_CSA_UNACCEPTABLE
  deriving DecidableEq, Repr

/-- Embedding of `T30Error` (error.rs line 38): a newtype over the raw `t30_err_e`. -/
structure T30Error where
  raw : T30Err
  deriving DecidableEq, Repr

/-- Embedding of `T30Error::is_ok` (error.rs lines 46-48): true exactly on `T30_ERR_OK`. -/
def T30Error.is_ok (e : T30Error) : Bool := e.raw = T30Err.T30_ERR_OK

/-- Embedding of `SpanDspError` (error.rs lines 4-19). -/
inductive SpanDspError
  | InitFailed
  | ErrorCode (code : Int)
  | InvalidInput (reason : String)
  | T30 (e : T30Error)
  deriving DecidableEq, Repr

/-- Rust `CString::new` over the bytes of the argument: fails exactly when the
byte string contains a NUL byte (the embedded terminator illegal for the
native representation); otherwise passes the bytes through. -/
def cstring_new (bytes : List Nat) : Option (List Nat) :=
  if bytes.contains 0 then none else some bytes

end Spandsp

namespace Spandsp

/-- Embedding of `T30State` (t30.rs lines 43-46): a non-null pointer plus the ownership
tag.  The pointer is modelled as a `Nat` address with `0` for NULL. -/
structure T30State where
  ptr : Nat
  owned : Bool
  deriving DecidableEq, Repr

/-- Embedding of `T30State::from_raw` (t30.rs lines 53-56): `NonNull::new(ptr)` fails on
NULL, mapped to `InitFailed`; otherwise the pointer and the `owned` flag are
stored. -/
def T30State.from_raw (ptr : Nat) (owned : Bool) : Except SpanDspError T30State :=
  match (if ptr = 0 then none else some ptr) with
  | none => .error .InitFailed
  | some p => .ok { ptr := p, owned := owned }

/-- Embedding of `impl Drop for T30State` (t30.rs lines 238-246): `t30_free` is called only
when `owned` is set. -/
def T30State.drop_calls (s : T30State) : List NativeCall :=
  if s.owned then [.t30_free] else []

/-- Embedding of `T30State::set_tx_file` (t30.rs lines 64-76): path through `CString::new`
(error on NUL byte before any native call), then `t30_set_tx_file`.  The
start and stop pages are passed through to the native call. -/
def T30State.set_tx_file (_file : List Nat) (_start_page _stop_page : Int) :
    List NativeCall × Except SpanDspError Unit :=
  match cstring_new _file with
  | none => ([], .error (.InvalidInput "file path contains NUL"))
  | some _ => ([.t30_set_tx_file], .ok ())

/-- Embedding of `LoggingState` (logging.rs lines 136-140): pointer plus the optionally
installed boxed handler (tracked here only by presence). -/
structure LoggingState where
  ptr : Nat
  handler_installed : Bool
  deriving DecidableEq, Repr

/-- Embedding of `LoggingState::from_ptr_borrowed` (logging.rs lines 171-178): wraps the
(non-null) pointer directly; no field records that the state is borrowed. -/
def LoggingState.from_ptr_borrowed (ptr : Nat) : LoggingState :=
  { ptr := ptr, handler_installed := false }

/-- Embedding of `impl Drop for LoggingState` (logging.rs lines 251-257): `span_log_free`
is called unconditionally. -/
def LoggingState.drop_calls (_s : LoggingState) : List NativeCall :=
  [.span_log_free]

/-- Embedding of `LoggingState::set_tag` (logging.rs lines 203-210): tag through
`CString::new` (error on NUL byte before any native call), then
`span_log_set_tag`. -/
def LoggingState.set_tag (_tag : List Nat) :
    List NativeCall × Except SpanDspError Unit :=
  match cstring_new _tag with
  | none => ([], .error (.InvalidInput "tag contains NUL byte"))
  | some _ => ([.span_log_set_tag], .ok ())

/-- Embedding of `G711Mode` (g711.rs lines 16-21). -/
inductive G711Mode
  | ALaw
  | ULaw
  deriving DecidableEq, Repr

/-- Embedding of `G711State` (g711.rs lines 45-48). -/
structure G711State where
  ptr : Nat
  mode : G711Mode
  deriving DecidableEq, Repr

/-- Embedding of `G711State::new` (g711.rs lines 52-56): `g711_init` returns a pointer
(`init_ret`, `0` for NULL); `NonNull::new(ptr).ok_or(InitFailed)`. -/
def G711State.new (mode : G711Mode) (init_ret : Nat) : Except SpanDspError G711State :=
  match (if init_ret = 0 then none else some init_ret) with
  | none => .error .InitFailed
  | some p => .ok { ptr := p, mode := mode }

/-- Embedding of `HdlcRx` (hdlc.rs lines 48-51): pointer plus the boxed frame callback
(tracked by presence; `new` always installs one). -/
structure HdlcRx where
  ptr : Nat
  callback_installed : Bool
  deriving DecidableEq, Repr

/-- Embedding of `HdlcRx::new` (hdlc.rs lines 62-88): boxes the handler, calls
`hdlc_rx_init` (pointer abstracted as `init_ret`), and fails with `InitFailed`
exactly on NULL. -/
def HdlcRx.new (_crc32 _report_bad_frames : Bool) (_framing_ok_threshold : Int)
    (init_ret : Nat) : Except SpanDspError HdlcRx :=
  match (if init_ret = 0 then none else some init_ret) with
  | none => .error .InitFailed
  | some p => .ok { ptr := p, callback_installed := true }

/-- Embedding of `FaxState` (fax.rs lines 15-17). -/
structure FaxState where
  ptr : Nat
  deriving DecidableEq, Repr

/-- Embedding of `FaxState::new` (fax.rs lines 23-27): `fax_init` returns a pointer
(`init_ret`, `0` for NULL); NULL maps to `InitFailed`. -/
def FaxState.new (_calling_party : Bool) (init_ret : Nat) : Except SpanDspError FaxState :=
  match (if init_ret = 0 then none else some init_ret) with
  | none => .error .InitFailed
  | some p => .ok { ptr := p }

/-- Embedding of `HdlcTx::frame` (hdlc.rs lines 219-226): nonzero native return `rc` maps
to `ErrorCode(rc)`, zero to success. -/
def HdlcTx.frame (rc : Int) : Except SpanDspError Unit :=
  if rc ≠ 0 then .error (.ErrorCode rc) else .ok ()

/-- Embedding of `HdlcTx::flags` (hdlc.rs lines 231-237): same zero/nonzero translation. -/
def HdlcTx.flags (rc : Int) : Except SpanDspError Unit :=
  if rc ≠ 0 then .error (.ErrorCode rc) else .ok ()

/-- Embedding of `FaxState::restart` (fax.rs lines 70-76): same zero/nonzero translation. -/
def FaxState.restart (rc : Int) : Except SpanDspError Unit :=
  if rc ≠ 0 then .error (.ErrorCode rc) else .ok ()

end Spandsp

namespace Spandsp

/-- Embedding of `T4DecodeStatus` (t4.rs lines 80-93), the dedicated status enumeration for
the T.4/T.6 decoder `put` operations. -/
inductive T4DecodeStatus
  | MoreData
  | Ok
  | Interrupt
  | Aborted
  | NoMem
  | InvalidData
  deriving DecidableEq, Repr

/-- Modelled from the spec: the numeric `t4_decoder_status_t` constants live
in the `spandsp-sys` bindings, which are not under src/.  Per the spec
(section 4.4) the statuses form the non-positive sentinel set, with the
distinguished values `more data = 0` and the remaining sentinels below it. -/
def T4DecodeStatus.toInt : T4DecodeStatus → Int
  | .MoreData => 0
  | .Ok => -1
  | .Interrupt => -2
  | .Aborted => -3
  | .NoMem => -4
  | .InvalidData => -5

/-- Embedding of `TryFrom<i32> for T4DecodeStatus` (t4.rs lines 101-117): a guard chain
comparing the value against each discriminant, with `InvalidInput` as the
fall-through (the source formats the offending value into the reason; the
model keeps a fixed reason string). -/
def T4DecodeStatus.try_from (value : Int) : Except SpanDspError T4DecodeStatus :=
  if value = T4DecodeStatus.toInt .MoreData then .ok .MoreData
  else if value = T4DecodeStatus.toInt .Ok then .ok .Ok
  else if value = T4DecodeStatus.toInt .Interrupt then .ok .Interrupt
  else if value = T4DecodeStatus.toInt .Aborted then .ok .Aborted
  else if value = T4DecodeStatus.toInt .NoMem then .ok .NoMem
  else if value = T4DecodeStatus.toInt .InvalidData then .ok .InvalidData
  else .error (.InvalidInput "invalid T4 decode status")

/-- Embedding of `T4Rx::put` (t4_rx.rs lines 89-92): the native return `rc` is decoded via
`T4DecodeStatus::try_from(rc).unwrap_or(InvalidData)` — always a status,
never an error. -/
def T4Rx.put (rc : Int) : T4DecodeStatus :=
  match T4DecodeStatus.try_from rc with
  | .ok s => s
  | .error _ => .InvalidData

/-- Embedding of `T4Rx::put_bit` (t4_rx.rs lines 95-98): identical decoding of the native
return. -/
def T4Rx.put_bit (rc : Int) : T4DecodeStatus :=
  match T4DecodeStatus.try_from rc with
  | .ok s => s
  | .error _ => .InvalidData

/-- Embedding of `LogLevel` (logging.rs lines 18-30). -/
inductive LogLevel
  | None
  | Error
  | Warning
  | ProtocolError
  | ProtocolWarning
  | Flow
  | Flow2
  | Flow3
  | Debug
  | Debug2
  | Debug3
  deriving DecidableEq, Repr

/-- Embedding of `TryFrom<i32> for LogLevel` (logging.rs lines 57-78).  The source formats
the offending value into the reason; the model keeps a fixed reason string. -/
def LogLevel.try_from (value : Int) : Except SpanDspError LogLevel :=
  match value with
  | 0 => .ok .None
  | 1 => .ok .Error
  | 2 => .ok .Warning
  | 3 => .ok .ProtocolError
  | 4 => .ok .ProtocolWarning
  | 5 => .ok .Flow
  | 6 => .ok .Flow2
  | 7 => .ok .Flow3
  | 8 => .ok .Debug
  | 9 => .ok .Debug2
  | 10 => .ok .Debug3
  | _ => .error (.InvalidInput "invalid log level")

end Spandsp

namespace Spandsp

/-- Continuation byte test for UTF-8: `0x80` to `0xBF`. -/
def utf8_cont (b : Nat) : Bool := 0x80 ≤ b && b ≤ 0xBF

/-- Modelled from Rust std `str::from_utf8` semantics (external to src/):
standard UTF-8 validity over a byte list — ASCII one-byte forms, the two- to
four-byte forms with their restricted second bytes (no overlong encodings, no
surrogates, nothing above U+10FFFF). -/
def utf8_valid : List Nat → Bool
  | [] => true
  | b0 :: t0 =>
    if b0 ≤ 0x7F then utf8_valid t0
    else if 0xC2 ≤ b0 && b0 ≤ 0xDF then
      match t0 with
      | b1 :: t1 => utf8_cont b1 && utf8_valid t1
      | [] => false
    else if 0xE0 ≤ b0 && b0 ≤ 0xEF then
      match t0 with
      | b1 :: b2 :: t2 =>
        (if b0 = 0xE0 then decide (0xA0 ≤ b1) && decide (b1 ≤ 0xBF)
         else if b0 = 0xED then decide (0x80 ≤ b1) && decide (b1 ≤ 0x9F)
         else utf8_cont b1) && utf8_cont b2 && utf8_valid t2
      | _ => false
    else if 0xF0 ≤ b0 && b0 ≤ 0xF4 then
      match t0 with
      | b1 :: b2 :: b3 :: t3 =>
        (if b0 = 0xF0 then decide (0x90 ≤ b1) && decide (b1 ≤ 0xBF)
         else if b0 = 0xF4 then decide (0x80 ≤ b1) && decide (b1 ≤ 0x8F)
         else utf8_cont b1) && utf8_cont b2 && utf8_cont b3 && utf8_valid t3
      | _ => false
    else false

end Spandsp

namespace Spandsp

/-- Embedding of `hdlc_rx_frame_trampoline` (hdlc.rs lines 25-43).  The context pointer is
`none` for NULL; the frame memory is `none` for a NULL data pointer and
otherwise the `len` bytes at the pointer.  The result is the invocation of the
stored closure, if any: the `(frame bytes, crc ok)` pair it is called with. -/
def hdlc_rx_frame_trampoline (user_data : Option Nat) (pkt : Option (List Nat))
    (len : Int) (ok : Int) : Option (List Nat × Bool) :=
  if user_data.isNone then none
  else if pkt.isNone || len ≤ 0 then some ([], ok != 0)
  else some ((pkt.getD []).take len.toNat, ok != 0)

/-- Embedding of `dtmf_rx_callback_trampoline` (dtmf.rs lines 141-156).  The digit memory
is `none` for a NULL pointer and otherwise the `len` bytes at the pointer; the
bytes reach the closure only when they are valid UTF-8.  The result is the
byte string the stored closure is invoked with, if any. -/
def dtmf_rx_callback_trampoline (user_data : Option Nat) (digits : Option (List Nat))
    (len : Int) : Option (List Nat) :=
  if user_data.isNone || digits.isNone || len ≤ 0 then none
  else
    let slice := (digits.getD []).take len.toNat
    if utf8_valid slice then some slice else none

/-- Embedding of `message_handler_trampoline` (logging.rs lines 114-130).  The text is
`none` for a NULL pointer and otherwise the bytes of the C string (no interior
NUL); the closure is invoked only when the bytes are valid UTF-8, with the
level decoded through `LogLevel::try_from(level).unwrap_or(None)`.  The result
is the `(level, text)` pair the stored closure is invoked with, if any. -/
def message_handler_trampoline (user_data : Option Nat) (level : Int)
    (text : Option (List Nat)) : Option (LogLevel × List Nat) :=
  if user_data.isNone || text.isNone then none
  else
    let bytes := text.getD []
    if utf8_valid bytes then
      some ((match LogLevel.try_from level with
             | .ok l => l
             | .error _ => LogLevel.None), bytes)
    else none

/-- Embedding of `T30State::completion_code` (t30.rs lines 167-235): the `i32` code is cast
to `u32` (modelled by `mod 2 ^ 32` of an in-range `i32`) and matched against
the 62 named discriminants, every other value giving `None`. -/
def T30State.completion_code (code : Int) : Option T30Error :=
  match (code % 2 ^ 32).toNat with
  | 0 => some ⟨.T30_ERR_OK⟩
  | 1 => some ⟨.T30_ERR_CEDTONE⟩
  | 2 => some ⟨.T30_ERR_T0_EXPIRED⟩
  | 3 => some ⟨.T30_ERR_T1_EXPIRED⟩
  | 4 => some ⟨.T30_ERR_T3_EXPIRED⟩
  | 5 => some ⟨.T30_ERR_HDLC_CARRIER⟩
  | 6 => some ⟨.T30_ERR_CANNOT_TRAIN⟩
  | 7 => some ⟨.T30_ERR_OPER_INT_FAIL⟩
  | 8 => some ⟨.T30_ERR_INCOMPATIBLE⟩
  | 9 => some ⟨.T30_ERR_RX_INCAPABLE⟩
  | 10 => some ⟨.T30_ERR_TX_INCAPABLE⟩
  | 11 => some ⟨.T30_ERR_NORESSUPPORT⟩
  | 12 => some ⟨.T30_ERR_NOSIZESUPPORT⟩
  | 13 => some ⟨.T30_ERR_UNEXPECTED⟩
  | 14 => some ⟨.T30_ERR_TX_BADDCS⟩
  | 15 => some ⟨.T30_ERR_TX_BADPG⟩
  | 16 => some ⟨.T30_ERR_TX_ECMPHD⟩
  | 17 => some ⟨.T30_ERR_TX_GOTDCN⟩
  | 18 => some ⟨.T30_ERR_TX_INVALRSP⟩
  | 19 => some ⟨.T30_ERR_TX_NODIS⟩
  | 20 => some ⟨.T30_ERR_TX_PHBDEAD⟩
  | 21 => some ⟨.T30_ERR_TX_PHDDEAD⟩
  | 22 => some ⟨.T30_ERR_TX_T5EXP⟩
  | 23 => some ⟨.T30_ERR_RX_ECMPHD⟩
  | 24 => some ⟨.T30_ERR_RX_GOTDCS⟩
  | 25 => some ⟨.T30_ERR_RX_INVALCMD⟩
  | 26 => some ⟨.T30_ERR_RX_NOCARRIER⟩
  | 27 => some ⟨.T30_ERR_RX_NOEOL⟩
  | 28 => some ⟨.T30_ERR_RX_NOFAX⟩
  | 29 => some ⟨.T30_ERR_RX_T2EXPDCN⟩
  | 30 => some ⟨.T30_ERR_RX_T2EXPD⟩
  | 31 => some ⟨.T30_ERR_RX_T2EXPFAX⟩
  | 32 => some ⟨.T30_ERR_RX_T2EXPMPS⟩
  | 33 => some ⟨.T30_ERR_RX_T2EXPRR⟩
  | 34 => some ⟨.T30_ERR_RX_T2EXP⟩
  | 35 => some ⟨.T30_ERR_RX_DCNWHY⟩
  | 36 => some ⟨.T30_ERR_RX_DCNDATA⟩
  | 37 => some ⟨.T30_ERR_RX_DCNFAX⟩
  | 38 => some ⟨.T30_ERR_RX_DCNPHD⟩
  | 39 => some ⟨.T30_ERR_RX_DCNRRD⟩
  | 40 => some ⟨.T30_ERR_RX_DCNNORTN⟩
  | 41 => some ⟨.T30_ERR_FILEERROR⟩
  | 42 => some ⟨.T30_ERR_NOPAGE⟩
  | 43 => some ⟨.T30_ERR_BADTIFF⟩
  | 44 => some ⟨.T30_ERR_BADPAGE⟩
  | 45 => some ⟨.T30_ERR_BADTAG⟩
  | 46 => some ⟨.T30_ERR_BADTIFFHDR⟩
  | 47 => some ⟨.T30_ERR_NOMEM⟩
  | 48 => some ⟨.T30_ERR_RETRYDCN⟩
  | 49 => some ⟨.T30_ERR_CALLDROPPED⟩
  | 50 => some ⟨.T30_ERR_NOPOLL⟩
  | 51 => some ⟨.T30_ERR_IDENT_UNACCEPTABLE⟩
  | 52 => some ⟨.T30_ERR_SUB_UNACCEPTABLE⟩
  | 53 => some ⟨.T30_ERR_SEP_UNACCEPTABLE⟩
  | 54 => some ⟨.T30_ERR_PSA_UNACCEPTABLE⟩
  | 55 => some ⟨.T30_ERR_SID_UNACCEPTABLE⟩
  | 56 => some ⟨.T30_ERR_PWD_UNACCEPTABLE⟩
  | 57 => some ⟨.T30_ERR_TSA_UNACCEPTABLE⟩
  | 58 => some ⟨.T30_ERR_IRA_UNACCEPTABLE⟩
  | 59 => some ⟨.T30_ERR_CIA_UNACCEPTABLE⟩
  | 60 => some ⟨.T30_ERR_ISP_UNACCEPTABLE⟩
  | 61 => some ⟨.T30_ERR_CSA_UNACCEPTABLE⟩
  | _ => none

/-- Embedding of `DtmfTx::put` (dtmf.rs lines 80-86): the digit string goes through
`CString::new`, which fails on any NUL byte before any native call; on success
`dtmf_tx_put` is called and its count (abstracted as `n`) returned. -/
def DtmfTx.put (digits : List Nat) (n : Nat) :
    List NativeCall × Except SpanDspError Nat :=
  match cstring_new digits with
  | none => ([], .error (.InvalidInput "digits contain NUL byte"))
  | some _ => ([.dtmf_tx_put], .ok n)

end Spandsp

open Spandsp

/-- C4 code evaluation at the failing input: a `T30State` built with
`from_raw(ptr, owned := false)` indeed issues no `t30_free` on drop, but a
`LoggingState` built with `from_ptr_borrowed` does call `span_log_free` on
drop — its `Drop` implementation frees unconditionally, contradicting the
borrowed-handle contract stated in the constructor documentation and the spec
invariant that an `owned=false` handle never issues a release call. -/
theorem C4_borrowed_drop_at_failing_input :
    (LoggingState.from_ptr_borrowed 1).drop_calls = [NativeCall.span_log_free] ∧
    T30State.drop_calls { ptr := 1, owned := false } = [] := by
  constructor <;> rfl

/-- C5: each text-taking wrapper operation rejects byte strings containing a
NUL byte with `InvalidInput` and an empty native-call trace (no native call
is issued), and on NUL-free strings the NUL check causes no error: the
operation succeeds after issuing exactly its native call. -/
theorem C5_nul_rejected_before_native_call (bytes : List Nat) (n : Nat)
    (sp ep : Int) :
    (0 ∈ bytes →
      DtmfTx.put bytes n
          = ([], .error (.InvalidInput "digits contain NUL byte")) ∧
      LoggingState.set_tag bytes
          = ([], .error (.InvalidInput "tag contains NUL byte")) ∧
      T30State.set_tx_file bytes sp ep
          = ([], .error (.InvalidInput "file path contains NUL"))) ∧
    (0 ∉ bytes →
      DtmfTx.put bytes n = ([.dtmf_tx_put], .ok n) ∧
      LoggingState.set_tag bytes = ([.span_log_set_tag], .ok ()) ∧
      T30State.set_tx_file bytes sp ep = ([.t30_set_tx_file], .ok ())) := by
  constructor <;> intro h <;>
    simp [DtmfTx.put, LoggingState.set_tag, T30State.set_tx_file, cstring_new, h]

/-- C5 witness: the theorem applied to the byte strings `[65, 0, 66]` (with an
interior NUL) and `[65, 66]` (without). -/
theorem C5_nul_witness :
    (DtmfTx.put [65, 0, 66] 2
        = ([], .error (.InvalidInput "digits contain NUL byte")) ∧
      LoggingState.set_tag [65, 0, 66]
        = ([], .error (.InvalidInput "tag contains NUL byte")) ∧
      T30State.set_tx_file [65, 0, 66] 1 (-1)
        = ([], .error (.InvalidInput "file path contains NUL"))) ∧
    DtmfTx.put [65, 66] 2 = ([.dtmf_tx_put], .ok 2) :=
  ⟨(C5_nul_rejected_before_native_call [65, 0, 66] 2 1 (-1)).1 (by decide),
   ((C5_nul_rejected_before_native_call [65, 66] 2 1 (-1)).2 (by decide)).1⟩

/-- C6: each wrapped pointer-returning initializer fails with `InitFailed`
exactly when the native initializer returned NULL (modelled as `0`), and
otherwise succeeds with a wrapper holding exactly the returned pointer. -/
theorem C6_init_failure_iff_null (mode : G711Mode) (c r cp : Bool) (th : Int)
    (ret : Nat) :
    (G711State.new mode ret = .error .InitFailed ↔ ret = 0) ∧
    (G711State.new mode ret = .ok { ptr := ret, mode := mode } ↔ ret ≠ 0) ∧
    (HdlcRx.new c r th ret = .error .InitFailed ↔ ret = 0) ∧
    (HdlcRx.new c r th ret = .ok { ptr := ret, callback_installed := true } ↔ ret ≠ 0) ∧
    (FaxState.new cp ret = .error .InitFailed ↔ ret = 0) ∧
    (FaxState.new cp ret = .ok { ptr := ret } ↔ ret ≠ 0) := by
  by_cases h : ret = 0 <;>
    simp [G711State.new, HdlcRx.new, FaxState.new, h]

/-- C7: the integer-returning operations wrapped as `Result` (`HdlcTx::frame`,
`HdlcTx::flags`, `FaxState::restart`) succeed exactly on a zero native return
and map every nonzero return `rc` to `ErrorCode(rc)`; whereas `T4Rx::put` and
`T4Rx::put_bit` decode the native return through the dedicated
`T4DecodeStatus` enumeration (their return type — no error is ever surfaced):
each status discriminant decodes to itself, and every value outside the
discriminant set falls back to `InvalidData`. -/
theorem C7_result_versus_status_decoding (rc : Int) :
    (HdlcTx.frame rc = .ok () ↔ rc = 0) ∧
    (∀ e, HdlcTx.frame rc = .error e ↔ rc ≠ 0 ∧ e = .ErrorCode rc) ∧
    (HdlcTx.flags rc = .ok () ↔ rc = 0) ∧
    (∀ e, HdlcTx.flags rc = .error e ↔ rc ≠ 0 ∧ e = .ErrorCode rc) ∧
    (FaxState.restart rc = .ok () ↔ rc = 0) ∧
    (∀ e, FaxState.restart rc = .error e ↔ rc ≠ 0 ∧ e = .ErrorCode rc) ∧
    (∀ s : T4DecodeStatus, T4Rx.put s.toInt = s ∧ T4Rx.put_bit s.toInt = s) ∧
    ((∀ s : T4DecodeStatus, rc ≠ s.toInt) →
      T4Rx.put rc = .InvalidData ∧ T4Rx.put_bit rc = .InvalidData) := by
  refine ⟨?_, ?_, ?_, ?_, ?_, ?_, ?_, ?_⟩
  · by_cases h : rc = 0 <;> simp [HdlcTx.frame, h]
  · intro e
    by_cases h : rc = 0
    · simp [HdlcTx.frame, h]
    · simp only [HdlcTx.frame, if_pos h, eq_comm]
      simp [h]
  · by_cases h : rc = 0 <;> simp [HdlcTx.flags, h]
  · intro e
    by_cases h : rc = 0
    · simp [HdlcTx.flags, h]
    · simp only [HdlcTx.flags, if_pos h, eq_comm]
      simp [h]
  · by_cases h : rc = 0 <;> simp [FaxState.restart, h]
  · intro e
    by_cases h : rc = 0
    · simp [FaxState.restart, h]
    · simp only [FaxState.restart, if_pos h, eq_comm]
      simp [h]
  · intro s; cases s <;> constructor <;> rfl
  · intro h
    have h0 := h .MoreData
    have h1 := h .Ok
    have h2 := h .Interrupt
    have h3 := h .Aborted
    have h4 := h .NoMem
    have h5 := h .InvalidData
    simp [T4DecodeStatus.toInt] at h0 h1 h2 h3 h4 h5
    constructor <;>
      simp [T4Rx.put, T4Rx.put_bit, T4DecodeStatus.try_from, T4DecodeStatus.toInt,
        h0, h1, h2, h3, h4, h5]

/-- C7 witness: the theorem applied at the native return 7, which lies outside
the status discriminant set and decodes to `InvalidData`. -/
theorem C7_result_witness :
    T4Rx.put 7 = T4DecodeStatus.InvalidData ∧
    T4Rx.put_bit 7 = T4DecodeStatus.InvalidData :=
  (C7_result_versus_status_decoding 7).2.2.2.2.2.2.2 fun s => by cases s <;> decide

/-- C8 counterexample: with a non-null context pointer and a zero-length
payload, the HDLC frame trampoline is not a no-op — it invokes the stored
closure with an empty frame slice and the CRC flag — contradicting the claim
that a zero-length payload returns without invoking the closure. -/
theorem C8_hdlc_zero_length_counterexample :
    ¬(hdlc_rx_frame_trampoline (some 1) (some [7]) 0 1 = none) := by decide

/-- C8 (amended): a null context pointer is a no-op for all three trampolines;
a null payload pointer or a non-positive length is a no-op for the DTMF digit
trampoline, and null text is a no-op for the log message trampoline; the HDLC
frame trampoline instead treats a null payload pointer or a non-positive
length as an empty frame and still invokes the closure with an empty slice
and the CRC flag. -/
theorem C8_trampoline_guards_amended :
    (∀ pkt len ok, hdlc_rx_frame_trampoline none pkt len ok = none) ∧
    (∀ digits len, dtmf_rx_callback_trampoline none digits len = none) ∧
    (∀ level text, message_handler_trampoline none level text = none) ∧
    (∀ ud digits len, len ≤ 0 → dtmf_rx_callback_trampoline ud digits len = none) ∧
    (∀ ud len, dtmf_rx_callback_trampoline ud none len = none) ∧
    (∀ ud level, message_handler_trampoline ud level none = none) ∧
    (∀ ud pkt len ok, len ≤ 0 ∨ pkt = none →
      hdlc_rx_frame_trampoline (some ud) pkt len ok = some ([], ok != 0)) := by
  refine ⟨?_, ?_, ?_, ?_, ?_, ?_, ?_⟩
  · intro pkt len ok; simp [hdlc_rx_frame_trampoline]
  · intro digits len; simp [dtmf_rx_callback_trampoline]
  · intro level text; simp [message_handler_trampoline]
  · intro ud digits len h
    simp only [dtmf_rx_callback_trampoline]
    rw [if_pos]
    simp [h]
  · intro ud len
    simp only [dtmf_rx_callback_trampoline]
    rw [if_pos]
    simp
  · intro ud level; simp [message_handler_trampoline]
  · intro ud pkt len ok h
    simp only [hdlc_rx_frame_trampoline]
    rw [if_neg (by simp), if_pos]
    rcases h with h | h
    · simp [h]
    · simp [h]

/-- C8 witness: the amended theorem applied at concrete inputs — a
non-positive length drops the DTMF event, while the HDLC trampoline with a
null payload still invokes the closure with an empty frame. -/
theorem C8_trampoline_guards_witness :
    dtmf_rx_callback_trampoline (some 5) (some [49]) 0 = none ∧
    hdlc_rx_frame_trampoline (some 1) none 3 0 = some ([], false) := by
  constructor
  · exact C8_trampoline_guards_amended.2.2.2.1 (some 5) (some [49]) 0 (by decide)
  · exact C8_trampoline_guards_amended.2.2.2.2.2.2 1 none 3 0 (Or.inr rfl)

/-- C9: for the text-delivering trampolines invoked with a live context and a
non-empty payload, an event whose bytes are not valid UTF-8 is silently
dropped — the stored closure is not invoked and no error is raised (the
trampoline reports no invocation) — while valid UTF-8 bytes reach the closure
exactly as delivered by the native side. -/
theorem C9_utf8_validation_policy (level : Int) (udp : Nat)
    (digits text : List Nat) (hlen : 0 < digits.length) :
    (utf8_valid digits = false →
      dtmf_rx_callback_trampoline (some udp) (some digits) digits.length = none) ∧
    (utf8_valid digits = true →
      dtmf_rx_callback_trampoline (some udp) (some digits) digits.length = some digits) ∧
    (utf8_valid text = false →
      message_handler_trampoline (some udp) level (some text) = none) ∧
    (utf8_valid text = true →
      ∃ l, message_handler_trampoline (some udp) level (some text) = some (l, text)) := by
  have hlen2 : ¬((digits.length : Int) ≤ 0) := by
    omega
  have hslice : (digits.take ((digits.length : Int)).toNat) = digits := by
    simp
  refine ⟨?_, ?_, ?_, ?_⟩
  · intro h
    simp [dtmf_rx_callback_trampoline, hlen2, hslice, h]
  · intro h
    simp [dtmf_rx_callback_trampoline, hlen2, hslice, h]
  · intro h
    simp [message_handler_trampoline, h]
  · intro h
    exact ⟨(match LogLevel.try_from level with | .ok l => l | .error _ => LogLevel.None),
      by simp [message_handler_trampoline, h]⟩

/-- C9 witness: the theorem applied to the invalid byte string `[255]` and the
valid byte string `[104]` (the letter h). -/
theorem C9_utf8_validation_witness :
    dtmf_rx_callback_trampoline (some 1) (some [255]) ([255] : List Nat).length = none ∧
    ∃ l, message_handler_trampoline (some 1) 5 (some [104]) = some (l, [104]) :=
  ⟨(C9_utf8_validation_policy 5 1 [255] [104] (by decide)).1 (by decide),
   (C9_utf8_validation_policy 5 1 [255] [104] (by decide)).2.2.2 (by decide)⟩

namespace Spandsp

theorem completion_code_none_of_ge (code : Int)
    (h : 62 ≤ ((code % 2 ^ 32)).toNat) : T30State.completion_code code = none := by
  unfold T30State.completion_code
  generalize hgen : ((code % 2 ^ 32)).toNat = n at h ⊢
  split <;> first | rfl | omega

end Spandsp

/-- C10: `T30State::completion_code` returns `Some` for exactly the `i32`
codes 0 to 61 and `None` for every other in-range `i32`; the value for code 0
satisfies `is_ok`, and the value for every code from 1 to 61 does not. -/
theorem C10_completion_code_range (code : Int)
    (h1 : -2147483648 ≤ code) (h2 : code < 2147483648) :
    ((T30State.completion_code code).isSome ↔ 0 ≤ code ∧ code ≤ 61) ∧
    (T30State.completion_code 0).map T30Error.is_ok = some true ∧
    (1 ≤ code → code ≤ 61 →
      (T30State.completion_code code).map T30Error.is_ok = some false) := by
  refine ⟨⟨?_, ?_⟩, by decide, ?_⟩
  · intro hs
    by_contra hc
    have hge : 62 ≤ ((code % 2 ^ 32)).toNat := by omega
    rw [completion_code_none_of_ge code hge] at hs
    simp at hs
  · rintro ⟨hc0, hc61⟩
    interval_cases code <;> decide
  · intro hc1 hc61
    interval_cases code <;> decide

/-- C10 witness: the theorem applied at code 61, the last known discriminant,
whose completion value is not a success. -/
theorem C10_completion_code_witness :
    (T30State.completion_code 61).map T30Error.is_ok = some false :=
  (C10_completion_code_range 61 (by decide) (by decide)).2.2 (by decide) (by decide)
